import Mathlib

/-!
Verification of the IsherCare face-analysis engine against its
natural-language specification.

The Python services are shallowly embedded over `ℚ`: every pixel statistic
(means, standard deviations, gradient magnitudes, pixel fractions) that an
estimator reads from the image is an explicit rational argument, and every
call to `random.uniform(lo, hi)` is an explicit rational argument
constrained to `[lo, hi]` in the theorems.  Python `round(x, n)` is
modelled by `roundTo n` (round half up on rationals).
-/

namespace FaceAnalysis

/-- Rounding to the nearest integer, half away from zero towards +∞,
modelling Python's `round` on the exact rational values that arise here. -/
def roundQ (q : ℚ) : ℤ := ⌊q + 1/2⌋

/-- The value `roundTo n q` models Python `round(q, n)`. -/
def roundTo (n : ℕ) (q : ℚ) : ℚ := (roundQ (q * 10 ^ n) : ℚ) / 10 ^ n

/-- A 2-D point with rational coordinates. -/
structure Pt where
  x : ℚ
  y : ℚ
  deriving DecidableEq, Repr

/-! ### FaceDetectionService._extract_basic_landmarks -/

/-- Landmark set returned by `FaceDetectionService._extract_basic_landmarks`:
per-feature lists of points. -/
structure FDLandmarks where
  left_eye : List Pt
  right_eye : List Pt
  nose : List Pt
  mouth : List Pt
  jawline : List Pt
  eyebrows : List Pt
  face_outline : List Pt
  deriving DecidableEq, Repr

/-- Model of `FaceDetectionService._extract_basic_landmarks`: geometric landmark
approximation from the face bounding box `(x, y, w, h)`. -/
def extractBasicLandmarks (x y w h : ℚ) : FDLandmarks :=
  { left_eye := [⟨x + w * 0.3, y + h * 0.4⟩]
    right_eye := [⟨x + w * 0.7, y + h * 0.4⟩]
    nose := [⟨x + w * 0.5, y + h * 0.55⟩, ⟨x + w * 0.45, y + h * 0.6⟩,
             ⟨x + w * 0.55, y + h * 0.6⟩]
    mouth := [⟨x + w * 0.35, y + h * 0.75⟩, ⟨x + w * 0.5, y + h * 0.78⟩,
              ⟨x + w * 0.65, y + h * 0.75⟩]
    jawline := [⟨x + w * 0.1, y + h * 0.6⟩, ⟨x + w * 0.2, y + h * 0.8⟩,
                ⟨x + w * 0.5, y + h * 0.95⟩, ⟨x + w * 0.8, y + h * 0.8⟩,
                ⟨x + w * 0.9, y + h * 0.6⟩]
    eyebrows := [⟨x + w * 0.25, y + h * 0.3⟩, ⟨x + w * 0.35, y + h * 0.25⟩,
                 ⟨x + w * 0.65, y + h * 0.25⟩, ⟨x + w * 0.75, y + h * 0.3⟩]
    face_outline := [⟨x, y + h * 0.2⟩, ⟨x, y + h * 0.8⟩,
                     ⟨x + w * 0.2, y + h⟩, ⟨x + w * 0.8, y + h⟩,
                     ⟨x + w, y + h * 0.8⟩, ⟨x + w, y + h * 0.2⟩,
                     ⟨x + w * 0.8, y⟩, ⟨x + w * 0.2, y⟩] }

/-! ### FacialFeaturesService._detect_facial_landmarks -/

/-- Landmark set returned by `FacialFeaturesService._detect_facial_landmarks`
(sans the `face_bounds` echo of the input box). -/
structure FFLandmarks where
  left_eye : Pt
  right_eye : Pt
  nose_tip : Pt
  mouth_center : Pt
  left_mouth : Pt
  right_mouth : Pt
  chin : Pt
  left_cheek : Pt
  right_cheek : Pt
  forehead : Pt
  deriving DecidableEq, Repr

/-- Model of `FacialFeaturesService._detect_facial_landmarks`: landmark positions
estimated from the face bounding box. -/
def detectFacialLandmarks (x y w h : ℚ) : FFLandmarks :=
  { left_eye := ⟨x + w * 0.35, y + h * 0.35⟩
    right_eye := ⟨x + w * 0.65, y + h * 0.35⟩
    nose_tip := ⟨x + w * 0.5, y + h * 0.55⟩
    mouth_center := ⟨x + w * 0.5, y + h * 0.75⟩
    left_mouth := ⟨x + w * 0.4, y + h * 0.75⟩
    right_mouth := ⟨x + w * 0.6, y + h * 0.75⟩
    chin := ⟨x + w * 0.5, y + h * 0.95⟩
    left_cheek := ⟨x + w * 0.25, y + h * 0.6⟩
    right_cheek := ⟨x + w * 0.75, y + h * 0.6⟩
    forehead := ⟨x + w * 0.5, y + h * 0.15⟩ }

/-! ### ExpressionAnalysisService._estimate_landmarks -/

/-- Landmark set returned by `ExpressionAnalysisService._estimate_landmarks`.
It has no forehead point. -/
structure ExprLandmarks where
  left_eye : Pt
  right_eye : Pt
  left_eyebrow : Pt
  right_eyebrow : Pt
  nose_tip : Pt
  mouth_left : Pt
  mouth_right : Pt
  mouth_center : Pt
  chin : Pt
  left_cheek : Pt
  right_cheek : Pt
  deriving DecidableEq, Repr

/-- Model of `ExpressionAnalysisService._estimate_landmarks`: landmark positions
estimated from the face bounding box. -/
def estimateLandmarks (x y w h : ℚ) : ExprLandmarks :=
  { left_eye := ⟨x + w * 0.35, y + h * 0.35⟩
    right_eye := ⟨x + w * 0.65, y + h * 0.35⟩
    left_eyebrow := ⟨x + w * 0.3, y + h * 0.25⟩
    right_eyebrow := ⟨x + w * 0.7, y + h * 0.25⟩
    nose_tip := ⟨x + w * 0.5, y + h * 0.55⟩
    mouth_left := ⟨x + w * 0.35, y + h * 0.75⟩
    mouth_right := ⟨x + w * 0.65, y + h * 0.75⟩
    mouth_center := ⟨x + w * 0.5, y + h * 0.75⟩
    chin := ⟨x + w * 0.5, y + h * 0.9⟩
    left_cheek := ⟨x + w * 0.25, y + h * 0.6⟩
    right_cheek := ⟨x + w * 0.75, y + h * 0.6⟩ }

/-! ### FaceDetectionService.detect_faces / _calculate_confidence -/

/-- A face bounding box as returned by the cascade detector, in pixels. -/
structure FaceBox where
  x : ℕ
  y : ℕ
  w : ℕ
  h : ℕ
  deriving DecidableEq, Repr

/-- Pixel area of a face box. -/
def FaceBox.area (f : FaceBox) : ℕ := f.w * f.h

/-- Model of `max(faces, key=lambda f: f[2]*f[3])`: first box of maximal area. -/
def largestFace (f : FaceBox) (rest : List FaceBox) : FaceBox :=
  rest.foldl (fun b g => if g.area > b.area then g else b) f

/-- Model of `FaceDetectionService._calculate_confidence`: deterministic confidence
from the detected boxes, the image dimensions and its mean grayscale
brightness. -/
def calculateConfidence (faces : List FaceBox) (imgW imgH : ℕ)
    (brightness : ℚ) : ℚ :=
  match faces with
  | [] => 0
  | f :: rest =>
    let largest := largestFace f rest
    let sizeRatio : ℚ := (largest.area : ℚ) / ((imgH : ℚ) * (imgW : ℚ))
    let c1 : ℚ := 0.5 +
      (if sizeRatio > 0.1 then 0.3 else if sizeRatio > 0.05 then 0.2 else 0.1)
    let c2 : ℚ := c1 +
      (if imgW ≥ 640 ∧ imgH ≥ 480 then 0.1
       else if imgW ≥ 320 ∧ imgH ≥ 240 then 0.05 else 0)
    let c3 : ℚ := c2 + (if 50 ≤ brightness ∧ brightness ≤ 200 then 0.1 else 0)
    roundTo 3 (min 1 c3)

/-- The fields of the `face_detection` result of
`FaceDetectionService.detect_faces` that the claims are about. -/
structure FaceDetectionResult where
  has_face : Bool
  face_count : ℕ
  confidence : ℚ
  deriving DecidableEq, Repr

/-- Model of `FaceDetectionService.detect_faces`, given the boxes the cascade
detector returned for the image. -/
def detectFaces (faces : List FaceBox) (imgW imgH : ℕ)
    (brightness : ℚ) : FaceDetectionResult :=
  { has_face := faces.length > 0
    face_count := faces.length
    confidence := calculateConfidence faces imgW imgH brightness }

/-! ### SkinAnalysisService: parameters and estimators

Each estimator is a function of the pixel statistics it reads and of the
value its `random.uniform` call drew (an explicit `j` argument).
-/

/-- The record built by `SkinAnalysisService._create_skin_parameter`. -/
structure SkinParameter where
  raw_score : ℚ
  ui_score : ℚ
  severity : String
  area_percentage : ℚ
  confidence : ℚ
  deriving DecidableEq, Repr

/-- Model of `SkinAnalysisService._create_skin_parameter`. -/
def createSkinParameter (raw : ℚ) : SkinParameter :=
  let ui := min 100 (max 0 (raw * 100))
  { raw_score := roundTo 3 raw
    ui_score := roundTo 1 ui
    severity := if ui < 30 then "Low" else if ui < 70 then "Medium" else "High"
    area_percentage := roundTo 1 (raw * 100)
    confidence := 0.8 }

/-- Model of `SkinAnalysisService._analyze_moisture` score, from the mean `lMean` and
standard deviation `lStd` of the masked L channel, with jitter
`j = random.uniform(-0.1, 0.1)`. -/
def analyzeMoisture (lMean lStd j : ℚ) : ℚ :=
  let brightness := lMean / 255
  let uniformity := 1 - lStd / 64
  roundTo 3 (max 0.2 (min 0.8 (0.3 + brightness * 0.3 + uniformity * 0.2 + j)))

/-- Model of `SkinAnalysisService._analyze_radiance` score, with
`j = random.uniform(-0.1, 0.1)`. -/
def analyzeRadiance (lMean lStd j : ℚ) : ℚ :=
  let brightness := lMean / 255
  let contrast := lStd / 64
  roundTo 3 (max 0.1 (min 0.9 (0.2 + brightness * 0.4 + contrast * 0.2 + j)))

/-- Model of `SkinAnalysisService._analyze_firmness` score, from the masked mean
gradient magnitude `gradMean`, with `j = random.uniform(-0.1, 0.1)`. -/
def analyzeFirmness (gradMean j : ℚ) : ℚ :=
  let textureRoughness := gradMean / 50
  roundTo 3 (max 0.2 (min 0.8 (0.3 + (1 - min 1 textureRoughness) * 0.4 + j)))

/-- Model of `SkinAnalysisService._analyze_age_spots` severity, from the dark-spot
pixel fraction `spotPct`, with `j = random.uniform(0.1, 0.3)`. -/
def analyzeAgeSpots (spotPct j : ℚ) : ℚ :=
  roundTo 3 (min 0.7 (spotPct * 2 + j))

/-- Model of `SkinAnalysisService._analyze_dark_circles`:
`0.2 + random.uniform(-0.1, 0.3)`, independent of the image. -/
def analyzeDarkCircles (j : ℚ) : ℚ := 0.2 + j

/-- Model of `SkinAnalysisService._analyze_eye_bags`:
`0.15 + random.uniform(-0.05, 0.25)`, independent of the image. -/
def analyzeEyeBags (j : ℚ) : ℚ := 0.15 + j

/-- The clamped roughness inside `TextureAnalyzer.analyze_texture`, from the
masked mean gradient magnitude, with `j = random.uniform(-0.1, 0.1)`. -/
def textureRoughness (gradMean j : ℚ) : ℚ :=
  max 0.1 (min 0.8 (gradMean / 100 + j))

/-- The `score` field of `TextureAnalyzer.analyze_texture`. -/
def textureScore (gradMean j : ℚ) : ℚ :=
  roundTo 3 (1 - textureRoughness gradMean j)

/-- The `oiliness` field of `TextureAnalyzer.analyze_texture`, from the
masked gray mean and standard deviation, with
`j = random.uniform(-0.1, 0.1)`. -/
def textureOiliness (grayMean grayStd j : ℚ) : ℚ :=
  let uniformity := 1 - grayStd / 64
  roundTo 3 (min 0.8 (max 0.1 (grayMean / 128 * (1 - uniformity) + j)))

/-- Model of `PoreAnalyzer.analyze_pores` severity, from the masked mean of the
top-hat residual `poreMean`, with `j = random.uniform(-0.1, 0.1)`. -/
def analyzePores (poreMean j : ℚ) : ℚ :=
  let poreIntensity := poreMean / 255
  roundTo 3 (min 0.7 (max 0.1 (poreIntensity * 2 + j)))

/-- Model of `WrinkleAnalyzer.analyze_wrinkles` severity, from the masked mean of the
absolute Laplacian `lapMean`, with `j = random.uniform(-0.1, 0.1)`. -/
def analyzeWrinkles (lapMean j : ℚ) : ℚ :=
  let wrinkleIntensity := lapMean / 100
  roundTo 3 (min 0.6 (max 0.1 (wrinkleIntensity + j)))

/-- Model of `AcneAnalyzer.analyze_acne` severity, from the red-pixel fraction
`acnePct` of the mask, with `j = random.uniform(-0.1, 0.1)`. -/
def analyzeAcne (acnePct j : ℚ) : ℚ :=
  roundTo 3 (min 0.6 (max 0.1 (acnePct * 5 + j)))

/-- Model of `ColorAnalyzer._calculate_redness`, from the mean-channel ratio
`ratio = meanR / (meanG + meanB + 1e-6)`, with
`j = random.uniform(-0.1, 0.1)`. -/
def calculateRedness (ratio j : ℚ) : ℚ :=
  roundTo 3 (max 0.1 (min 0.8 ((ratio - 0.8) * 2 + j)))

/-- Model of `SkinAnalysisService._calculate_overall_health`: weighted sum of the
six component scores, plus jitter `j = random.uniform(-0.05, 0.05)`,
clamped to `[0.1, 0.9]`. -/
def calculateOverallHealth (texture pores wrinkles acne moisture radiance
    j : ℚ) : ℚ :=
  let score := texture * 0.15 + (1 - pores) * 0.15 + (1 - wrinkles) * 0.20 +
    (1 - acne) * 0.20 + moisture * 0.15 + radiance * 0.15
  roundTo 3 (max 0.1 (min 0.9 (score + j)))

/-- Model of `SkinAnalysisService._determine_skin_type`. -/
def determineSkinType (oiliness moisture acneSeverity : ℚ) : String :=
  if oiliness > 0.6 ∧ acneSeverity > 0.4 then "Oily"
  else if oiliness < 0.3 ∧ moisture < 0.4 then "Dry"
  else if oiliness > 0.6 ∧ moisture < 0.4 then "Combination"
  else if acneSeverity > 0.5 then "Sensitive"
  else "Normal"

/-- The `skin_tone` sub-record of a skin-analysis report. -/
structure SkinTone where
  category : String
  hex : String
  r : ℕ
  g : ℕ
  b : ℕ
  undertone : String
  deriving DecidableEq, Repr

/-- The `skin_analysis` record assembled by
`SkinAnalysisService.analyze_skin` / `_get_no_face_analysis_result`. -/
structure SkinReport where
  has_face : Bool
  face_detected : Bool
  skin_coverage : ℚ
  skin_type : String
  overall_health : ℚ
  skin_tone : SkinTone
  hd_redness : SkinParameter
  hd_oiliness : SkinParameter
  hd_age_spots : SkinParameter
  hd_radiance : SkinParameter
  hd_moisture : SkinParameter
  hd_dark_circles : SkinParameter
  hd_eye_bags : SkinParameter
  hd_firmness : SkinParameter
  hd_texture : SkinParameter
  hd_acne : SkinParameter
  hd_pores : SkinParameter
  hd_wrinkles : SkinParameter
  deriving DecidableEq, Repr

/-- Model of `SkinAnalysisService._get_no_face_analysis_result`: the defaulted
report returned when no face is found or skin coverage is insufficient. -/
def noFaceAnalysisResult : SkinReport :=
  { has_face := false
    face_detected := false
    skin_coverage := 0
    skin_type := "Unknown"
    overall_health := 0
    skin_tone := ⟨"Unknown", "#000000", 0, 0, 0, "Unknown"⟩
    hd_redness := createSkinParameter 0
    hd_oiliness := createSkinParameter 0
    hd_age_spots := createSkinParameter 0
    hd_radiance := createSkinParameter 0
    hd_moisture := createSkinParameter 0
    hd_dark_circles := createSkinParameter 0
    hd_eye_bags := createSkinParameter 0
    hd_firmness := createSkinParameter 0
    hd_texture := createSkinParameter 0
    hd_acne := createSkinParameter 0
    hd_pores := createSkinParameter 0
    hd_wrinkles := createSkinParameter 0 }

/-- Control flow of `SkinAnalysisService.analyze_skin`: face detection
first, then the 5% skin-coverage gate, and only then the full report
(whose estimator content is `successReport`). -/
def analyzeSkin (faceDetected : Bool) (skinCoverage : ℚ)
    (successReport : SkinReport) : SkinReport :=
  if !faceDetected then noFaceAnalysisResult
  else if skinCoverage < 0.05 then noFaceAnalysisResult
  else successReport

/-! ### AgeEstimationService -/

/-- Model of `AgeEstimationService._calculate_weighted_age`: indicator ages
`25 + score·range`, combined with the `age_indicators` weights and clamped
to `[18, 80]`. -/
def calculateWeightedAge (wrinkle texture eyeArea volume hair skinTone : ℚ) :
    ℚ :=
  let baseAge : ℚ := 25
  let wrinkleAge := baseAge + wrinkle * 40
  let textureAge := baseAge + texture * 30
  let eyeAge := baseAge + eyeArea * 35
  let volumeAge := baseAge + volume * 25
  let hairAge := baseAge + hair * 30
  let skinToneAge := baseAge + skinTone * 20
  let weightedAge := wrinkleAge * 0.3 + textureAge * 0.2 + eyeAge * 0.15 +
    volumeAge * 0.15 + hairAge * 0.1 + skinToneAge * 0.1
  max 18 (min 80 weightedAge)

/-- Model of `AgeEstimationService._calculate_age_range`:
`(min_age, max_age, most_likely)`. -/
def calculateAgeRange (estimatedAge : ℚ) : ℚ × ℚ × ℚ :=
  (max 18 (estimatedAge - 5), min 80 (estimatedAge + 5), estimatedAge)

/-- Mean of a list of rationals (`np.mean`). -/
def listMean (l : List ℚ) : ℚ := l.sum / l.length

/-- Population variance of a list of rationals (the square of `np.std`). -/
def listVariance (l : List ℚ) : ℚ :=
  listMean (l.map fun x => (x - listMean l) ^ 2)

/-- Model of `AgeEstimationService._calculate_confidence` as a function of the
standard deviation `σ` of the six indicator scores:
`max(0.3, 1 - min(1.0, σ))`. -/
def ageConfidenceOfStd (σ : ℚ) : ℚ := max 0.3 (1 - min 1 σ)

/-- Model of `AgeEstimationService._determine_age_group`. -/
def determineAgeGroup (estimatedAge : ℚ) : String :=
  if estimatedAge < 25 then "Young Adult (18-24)"
  else if estimatedAge < 35 then "Adult (25-34)"
  else if estimatedAge < 45 then "Middle-aged (35-44)"
  else if estimatedAge < 55 then "Mature (45-54)"
  else if estimatedAge < 65 then "Senior (55-64)"
  else "Elderly (65+)"

/-! ### ExpressionAnalysisService -/

/-- The fourteen action-unit scores computed by
`ExpressionAnalysisService._analyze_facial_action_units`. -/
structure AUScores where
  au1 : ℚ
  au2 : ℚ
  au4 : ℚ
  au5 : ℚ
  au6 : ℚ
  au7 : ℚ
  au9 : ℚ
  au10 : ℚ
  au12 : ℚ
  au15 : ℚ
  au17 : ℚ
  au20 : ℚ
  au25 : ℚ
  au26 : ℚ
  deriving DecidableEq, Repr

/-- Model of `action_units.values()`, in the insertion order of
`_analyze_facial_action_units`. -/
def AUScores.values (a : AUScores) : List ℚ :=
  [a.au1, a.au2, a.au4, a.au5, a.au6, a.au7, a.au9, a.au10, a.au12, a.au15,
   a.au17, a.au20, a.au25, a.au26]

/-- Model of `ExpressionAnalysisService._detect_emotions`: the seven
`(name, confidence)` pairs, in list order. -/
def detectEmotions (a : AUScores) : List (String × ℚ) :=
  [("happy", roundTo 3 ((a.au6 + a.au12) / 2)),
   ("sad", roundTo 3 ((a.au15 + a.au1) / 2)),
   ("angry", roundTo 3 ((a.au4 + a.au15) / 2)),
   ("surprise", roundTo 3 ((a.au1 + a.au2 + a.au5 + a.au25) / 4)),
   ("fear", roundTo 3 ((a.au1 + a.au5 + a.au20) / 3)),
   ("disgust", roundTo 3 ((a.au9 + a.au10) / 2)),
   ("neutral", roundTo 3 (max 0 (1 - a.values.sum / a.values.length)))]

/-- Model of `max(emotions, key=lambda x: x['confidence'])`: the first emotion of
maximal confidence. -/
def dominantEmotion (e : String × ℚ) (rest : List (String × ℚ)) :
    String × ℚ :=
  rest.foldl (fun b g => if g.2 > b.2 then g else b) e

/-- Model of `ExpressionAnalysisService._calculate_expression_intensity`. -/
def calculateExpressionIntensity (a : AUScores) : ℚ :=
  let totalIntensity := a.values.sum
  let normalizedIntensity := totalIntensity / a.values.length
  min 1 normalizedIntensity

/-- Model of the dominant-emotion selection in
`ExpressionAnalysisService.analyze_expression`:
`max(emotions, key=lambda x: x['confidence'])` over the list returned by
`_detect_emotions` (which is never empty). -/
def analyzeExpressionDominant (a : AUScores) : String × ℚ :=
  match detectEmotions a with
  | [] => ("neutral", 0)
  | e :: rest => dominantEmotion e rest

/-! ### main.comprehensive_analysis -/

/-- The 400 error payload raised by `comprehensive_analysis` when face
detection reports no face; it carries the face-detection sub-report. -/
structure NoFaceError where
  status_code : ℕ
  error : String
  message : String
  face_detection : FaceDetectionResult
  deriving DecidableEq, Repr

/-- Model of `main.comprehensive_analysis`, given the face-detection result and the
four downstream analyses as an unevaluated computation: the gate runs the
computation only when a face was found. -/
def comprehensiveAnalysis {σ φ α ε : Type} (fd : FaceDetectionResult)
    (analyses : Unit → σ × φ × α × ε) :
    Except NoFaceError (FaceDetectionResult × σ × φ × α × ε) :=
  if fd.has_face then .ok (fd, analyses ())
  else .error
    { status_code := 400
      error := "No face detected"
      message := "Please capture a clear image of your face for analysis. The image must contain a visible human face."
      face_detection := fd }

/-! ### Spec-side formulas

These definitions transcribe the specification's words, to be compared
with the definitions transcribed from the source.
-/

/-- Spec formula for the weighted age: indicator ages `25 + indicator·range`
with ranges `(40, 30, 35, 25, 30, 20)` and weights
`(0.30, 0.20, 0.15, 0.15, 0.10, 0.10)`, clamped to `[18, 80]`. -/
def specWeightedAge (wrinkle texture eyeArea volume hair skinTone : ℚ) : ℚ :=
  max 18 (min 80 ((25 + wrinkle * 40) * 0.30 + (25 + texture * 30) * 0.20 +
    (25 + eyeArea * 35) * 0.15 + (25 + volume * 25) * 0.15 +
    (25 + hair * 30) * 0.10 + (25 + skinTone * 20) * 0.10))

/-- Spec formula for the age-estimation confidence:
`1 − stddev` of the six indicators, floored at `0.3`. -/
def specAgeConfidence (σ : ℚ) : ℚ := max 0.3 (1 - σ)

/-- Spec priority list for the skin type: first matching rule wins. -/
def specSkinType (oiliness moisture acneSeverity : ℚ) : String :=
  if oiliness > 0.6 ∧ acneSeverity > 0.4 then "Oily"
  else if oiliness < 0.3 ∧ moisture < 0.4 then "Dry"
  else if oiliness > 0.6 ∧ moisture < 0.4 then "Combination"
  else if acneSeverity > 0.5 then "Sensitive"
  else "Normal"

/-- Spec formula for the overall skin-health score:
`texture·0.15 + (1−pore)·0.15 + (1−wrinkle)·0.20 + (1−acne)·0.20 +
moisture·0.15 + radiance·0.15`. -/
def specHealthWeightedSum (texture pores wrinkles acne moisture
    radiance : ℚ) : ℚ :=
  texture * 0.15 + (1 - pores) * 0.15 + (1 - wrinkles) * 0.20 +
    (1 - acne) * 0.20 + moisture * 0.15 + radiance * 0.15

/-- Spec severity bands over the ui score: `<30` Low, `<70` Medium,
else High. -/
def specUiBand (ui : ℚ) : String :=
  if ui < 30 then "Low" else if ui < 70 then "Medium" else "High"

/-- The conjunction claim C8 asserts of the parameter that
`_create_skin_parameter` builds from an estimator's raw score `r`. -/
def ParamSpecOk (r : ℚ) : Prop :=
  0 ≤ (createSkinParameter r).raw_score ∧
  (createSkinParameter r).raw_score ≤ 1 ∧
  (createSkinParameter r).ui_score =
    min 100 (max 0 ((createSkinParameter r).raw_score * 100)) ∧
  (createSkinParameter r).severity = specUiBand (min 100 (max 0 (r * 100))) ∧
  0 ≤ (createSkinParameter r).confidence ∧
  (createSkinParameter r).confidence ≤ 1

/-! ### Rounding lemmas -/

lemma roundTo_le {n : ℕ} {q : ℚ} {k : ℤ} (h : q ≤ (k : ℚ) / 10 ^ n) :
    roundTo n q ≤ (k : ℚ) / 10 ^ n := by
  have hpow : (0 : ℚ) < 10 ^ n := by positivity
  have hq : q * 10 ^ n ≤ (k : ℚ) := by
    calc q * 10 ^ n ≤ ((k : ℚ) / 10 ^ n) * 10 ^ n := by
          exact mul_le_mul_of_nonneg_right h (le_of_lt hpow)
    _ = (k : ℚ) := by field_simp
  have hfloor : roundQ (q * 10 ^ n) ≤ k := by
    have h1 : q * 10 ^ n + 1/2 ≤ (k : ℚ) + 1/2 := by linarith
    have h2 : (⌊q * 10 ^ n + 1/2⌋ : ℤ) ≤ ⌊(k : ℚ) + 1/2⌋ := Int.floor_mono h1
    have h3 : (⌊(k : ℚ) + 1/2⌋ : ℤ) = k := by
      rw [add_comm, Int.floor_add_int]
      norm_num
    rw [roundQ]
    omega
  rw [roundTo]
  exact div_le_div_of_nonneg_right (by exact_mod_cast hfloor) hpow.le

lemma le_roundTo {n : ℕ} {q : ℚ} {k : ℤ} (h : (k : ℚ) / 10 ^ n ≤ q) :
    (k : ℚ) / 10 ^ n ≤ roundTo n q := by
  have hpow : (0 : ℚ) < 10 ^ n := by positivity
  have hq : (k : ℚ) ≤ q * 10 ^ n := by
    calc (k : ℚ) = ((k : ℚ) / 10 ^ n) * 10 ^ n := by field_simp
    _ ≤ q * 10 ^ n := mul_le_mul_of_nonneg_right h (le_of_lt hpow)
  have hfloor : k ≤ roundQ (q * 10 ^ n) := by
    have h1 : (k : ℚ) ≤ q * 10 ^ n + 1/2 := by linarith
    have h2 : k = ⌊(k : ℚ)⌋ := (Int.floor_intCast k).symm
    rw [roundQ]
    calc k = ⌊(k : ℚ)⌋ := h2
    _ ≤ ⌊q * 10 ^ n + 1/2⌋ := Int.floor_mono h1
  rw [roundTo]
  exact div_le_div_of_nonneg_right (by exact_mod_cast hfloor) hpow.le

/-- Rounding to three decimals keeps a value of `[0, 1]` inside `[0, 1]`. -/
lemma roundTo3_mem_unit {q : ℚ} (h0 : 0 ≤ q) (h1 : q ≤ 1) :
    0 ≤ roundTo 3 q ∧ roundTo 3 q ≤ 1 := by
  constructor
  · have := le_roundTo (n := 3) (q := q) (k := 0) (by norm_num; linarith)
    simpa using this
  · have := roundTo_le (n := 3) (q := q) (k := 1000) (by norm_num; linarith)
    calc roundTo 3 q ≤ ((1000 : ℤ) : ℚ) / 10 ^ 3 := this
    _ = 1 := by norm_num

/-- Rounding to one decimal after scaling by 100 agrees with scaling the
three-decimal rounding by 100. -/
lemma roundTo_one_mul_hundred (q : ℚ) :
    roundTo 1 (q * 100) = roundTo 3 q * 100 := by
  have h : q * 100 * (10 : ℚ) ^ 1 = q * 10 ^ 3 := by ring
  rw [roundTo, roundTo, h]
  ring

/-! ### Clamp and estimator range lemmas -/

lemma clamp_max_min_mem {lo hi x : ℚ} (h0 : 0 ≤ lo) (h1 : lo ≤ hi)
    (h2 : hi ≤ 1) : 0 ≤ max lo (min hi x) ∧ max lo (min hi x) ≤ 1 := by
  constructor
  · exact le_trans h0 (le_max_left _ _)
  · have ha : lo ≤ 1 := le_trans h1 h2
    have hb : min hi x ≤ 1 := le_trans (min_le_left _ _) h2
    exact max_le ha hb

lemma clamp_min_max_mem {lo hi x : ℚ} (h0 : 0 ≤ lo) (h1 : lo ≤ hi)
    (h2 : hi ≤ 1) : 0 ≤ min hi (max lo x) ∧ min hi (max lo x) ≤ 1 := by
  constructor
  · exact le_min (le_trans h0 h1) (le_trans h0 (le_max_left _ _))
  · exact le_trans (min_le_left _ _) h2

lemma analyzeMoisture_mem_unit (lMean lStd j : ℚ) :
    0 ≤ analyzeMoisture lMean lStd j ∧ analyzeMoisture lMean lStd j ≤ 1 := by
  unfold analyzeMoisture
  have h := @clamp_max_min_mem 0.2 0.8
    (0.3 + lMean / 255 * 0.3 + (1 - lStd / 64) * 0.2 + j)
    (by norm_num) (by norm_num) (by norm_num)
  exact roundTo3_mem_unit h.1 h.2

lemma analyzeRadiance_mem_unit (lMean lStd j : ℚ) :
    0 ≤ analyzeRadiance lMean lStd j ∧ analyzeRadiance lMean lStd j ≤ 1 := by
  unfold analyzeRadiance
  have h := @clamp_max_min_mem 0.1 0.9
    (0.2 + lMean / 255 * 0.4 + lStd / 64 * 0.2 + j)
    (by norm_num) (by norm_num) (by norm_num)
  exact roundTo3_mem_unit h.1 h.2

lemma analyzeFirmness_mem_unit (gradMean j : ℚ) :
    0 ≤ analyzeFirmness gradMean j ∧ analyzeFirmness gradMean j ≤ 1 := by
  unfold analyzeFirmness
  have h := @clamp_max_min_mem 0.2 0.8
    (0.3 + (1 - min 1 (gradMean / 50)) * 0.4 + j)
    (by norm_num) (by norm_num) (by norm_num)
  exact roundTo3_mem_unit h.1 h.2

lemma analyzeAgeSpots_mem_unit {spotPct j : ℚ} (hs : 0 ≤ spotPct)
    (hj : 0.1 ≤ j) :
    0 ≤ analyzeAgeSpots spotPct j ∧ analyzeAgeSpots spotPct j ≤ 1 := by
  unfold analyzeAgeSpots
  have h0 : (0 : ℚ) ≤ min 0.7 (spotPct * 2 + j) := by
    have : (0 : ℚ) ≤ spotPct * 2 + j := by nlinarith
    exact le_min (by norm_num) this
  have h1 : min (0.7 : ℚ) (spotPct * 2 + j) ≤ 1 :=
    le_trans (min_le_left _ _) (by norm_num)
  exact roundTo3_mem_unit h0 h1

lemma analyzeDarkCircles_mem_unit {j : ℚ} (hlo : -0.1 ≤ j) (hhi : j ≤ 0.3) :
    0 ≤ analyzeDarkCircles j ∧ analyzeDarkCircles j ≤ 1 := by
  unfold analyzeDarkCircles
  constructor <;> [linarith; linarith]

lemma analyzeEyeBags_mem_unit {j : ℚ} (hlo : -0.05 ≤ j) (hhi : j ≤ 0.25) :
    0 ≤ analyzeEyeBags j ∧ analyzeEyeBags j ≤ 1 := by
  unfold analyzeEyeBags
  constructor <;> [linarith; linarith]

lemma textureScore_mem_unit (gradMean j : ℚ) :
    0 ≤ textureScore gradMean j ∧ textureScore gradMean j ≤ 1 := by
  unfold textureScore textureRoughness
  have h := @clamp_max_min_mem 0.1 0.8 (gradMean / 100 + j)
    (by norm_num) (by norm_num) (by norm_num)
  exact roundTo3_mem_unit (by linarith [h.2]) (by linarith [h.1])

lemma textureOiliness_mem_unit (grayMean grayStd j : ℚ) :
    0 ≤ textureOiliness grayMean grayStd j ∧
    textureOiliness grayMean grayStd j ≤ 1 := by
  unfold textureOiliness
  have h := @clamp_min_max_mem 0.1 0.8
    (grayMean / 128 * (1 - (1 - grayStd / 64)) + j)
    (by norm_num) (by norm_num) (by norm_num)
  exact roundTo3_mem_unit h.1 h.2

lemma analyzePores_mem_unit (poreMean j : ℚ) :
    0 ≤ analyzePores poreMean j ∧ analyzePores poreMean j ≤ 1 := by
  unfold analyzePores
  have h := @clamp_min_max_mem 0.1 0.7 (poreMean / 255 * 2 + j)
    (by norm_num) (by norm_num) (by norm_num)
  exact roundTo3_mem_unit h.1 h.2

lemma analyzeWrinkles_mem_unit (lapMean j : ℚ) :
    0 ≤ analyzeWrinkles lapMean j ∧ analyzeWrinkles lapMean j ≤ 1 := by
  unfold analyzeWrinkles
  have h := @clamp_min_max_mem 0.1 0.6 (lapMean / 100 + j)
    (by norm_num) (by norm_num) (by norm_num)
  exact roundTo3_mem_unit h.1 h.2

lemma analyzeAcne_mem_unit (acnePct j : ℚ) :
    0 ≤ analyzeAcne acnePct j ∧ analyzeAcne acnePct j ≤ 1 := by
  unfold analyzeAcne
  have h := @clamp_min_max_mem 0.1 0.6 (acnePct * 5 + j)
    (by norm_num) (by norm_num) (by norm_num)
  exact roundTo3_mem_unit h.1 h.2

lemma calculateRedness_mem_unit (ratio j : ℚ) :
    0 ≤ calculateRedness ratio j ∧ calculateRedness ratio j ≤ 1 := by
  unfold calculateRedness
  have h := @clamp_max_min_mem 0.1 0.8 ((ratio - 0.8) * 2 + j)
    (by norm_num) (by norm_num) (by norm_num)
  exact roundTo3_mem_unit h.1 h.2

/-- The parameter `_create_skin_parameter` builds from a raw score in
`[0, 1]` satisfies everything claim C8 asserts of it. -/
lemma paramSpecOk_of_unit {r : ℚ} (h0 : 0 ≤ r) (h1 : r ≤ 1) :
    ParamSpecOk r := by
  have hmm : max (0 : ℚ) (r * 100) = r * 100 := max_eq_right (by linarith)
  have hmin : min (100 : ℚ) (r * 100) = r * 100 := min_eq_right (by linarith)
  have hraw := roundTo3_mem_unit h0 h1
  refine ⟨?_, ?_, ?_, ?_, ?_, ?_⟩
  · simpa [createSkinParameter] using hraw.1
  · simpa [createSkinParameter] using hraw.2
  · show roundTo 1 (min 100 (max 0 (r * 100))) =
      min 100 (max 0 (roundTo 3 r * 100))
    have h2 : max (0 : ℚ) (roundTo 3 r * 100) = roundTo 3 r * 100 :=
      max_eq_right (by nlinarith [hraw.1])
    have h3 : min (100 : ℚ) (roundTo 3 r * 100) = roundTo 3 r * 100 :=
      min_eq_right (by nlinarith [hraw.2])
    rw [hmm, hmin, h2, h3, roundTo_one_mul_hundred]
  · rfl
  · show (0 : ℚ) ≤ 0.8
    norm_num
  · show (0.8 : ℚ) ≤ 1
    norm_num

/-! ### Fold lemmas for the emotion argmax -/

lemma dominantEmotion_cons (e g : String × ℚ) (t : List (String × ℚ)) :
    dominantEmotion e (g :: t) = dominantEmotion (if g.2 > e.2 then g else e) t :=
  rfl

lemma dominantEmotion_mem (e : String × ℚ) (rest : List (String × ℚ)) :
    dominantEmotion e rest ∈ e :: rest := by
  induction rest generalizing e with
  | nil => simp [dominantEmotion]
  | cons g t ih =>
    rw [dominantEmotion_cons]
    by_cases h : g.2 > e.2
    · rw [if_pos h]
      have := ih g
      simp only [List.mem_cons] at this ⊢
      tauto
    · rw [if_neg h]
      have := ih e
      simp only [List.mem_cons] at this ⊢
      tauto

lemma le_dominantEmotion (e : String × ℚ) (rest : List (String × ℚ)) :
    ∀ p ∈ e :: rest, p.2 ≤ (dominantEmotion e rest).2 := by
  induction rest generalizing e with
  | nil =>
    intro p hp
    simp only [List.mem_singleton] at hp
    subst hp
    simp [dominantEmotion]
  | cons g t ih =>
    intro p hp
    rw [dominantEmotion_cons]
    have he : e.2 ≤ (if g.2 > e.2 then g else e).2 := by
      by_cases h : g.2 > e.2
      · rw [if_pos h]; linarith
      · rw [if_neg h]
    have hg : g.2 ≤ (if g.2 > e.2 then g else e).2 := by
      by_cases h : g.2 > e.2
      · rw [if_pos h]
      · rw [if_neg h]; linarith [not_lt.mp h]
    simp only [List.mem_cons] at hp
    rcases hp with rfl | rfl | hp
    · exact le_trans he (ih _ _ (List.mem_cons_self _ _))
    · exact le_trans hg (ih _ _ (List.mem_cons_self _ _))
    · exact ih _ p (List.mem_cons_of_mem _ hp)

/-! ### Claim theorems -/

/-- C1, counterexample: the claim that every landmark-deriving component
returns the spec's fixed-fraction points fails on the face-detection
service, whose left eye for the box `(0, 0, 100, 100)` is `(30, 40)`, not
`(35, 35)`; the expression service also places the chin of that box at
`(50, 90)`, not `(50, 95)`. -/
theorem C1_counterexample :
    (extractBasicLandmarks 0 0 100 100).left_eye ≠
      [{ x := 0 + 100 * 0.35, y := 0 + 100 * 0.35 }] ∧
    (estimateLandmarks 0 0 100 100).chin ≠
      { x := 0 + 100 * 0.5, y := 0 + 100 * 0.95 } := by
  constructor
  · simp only [extractBasicLandmarks, ne_eq, List.cons.injEq, and_true,
      Pt.mk.injEq, not_and]
    norm_num
  · simp only [estimateLandmarks, ne_eq, Pt.mk.injEq, not_and]
    norm_num

/-- C1, amended: the facial-features service returns exactly the claimed
fixed-fraction points; the expression service returns the claimed eye,
nose-tip, mouth-center and cheek points but places the chin at
`(x+0.5w, y+0.9h)` and has no forehead point; the face-detection service
uses different fractions, with eyes at `(x+0.3w, y+0.4h)` and
`(x+0.7w, y+0.4h)`. -/
theorem C1_landmarks (x y w h : ℚ) :
    (detectFacialLandmarks x y w h).left_eye = ⟨x + w * 0.35, y + h * 0.35⟩ ∧
    (detectFacialLandmarks x y w h).right_eye = ⟨x + w * 0.65, y + h * 0.35⟩ ∧
    (detectFacialLandmarks x y w h).nose_tip = ⟨x + w * 0.5, y + h * 0.55⟩ ∧
    (detectFacialLandmarks x y w h).mouth_center = ⟨x + w * 0.5, y + h * 0.75⟩ ∧
    (detectFacialLandmarks x y w h).chin = ⟨x + w * 0.5, y + h * 0.95⟩ ∧
    (detectFacialLandmarks x y w h).left_cheek = ⟨x + w * 0.25, y + h * 0.6⟩ ∧
    (detectFacialLandmarks x y w h).right_cheek = ⟨x + w * 0.75, y + h * 0.6⟩ ∧
    (detectFacialLandmarks x y w h).forehead = ⟨x + w * 0.5, y + h * 0.15⟩ ∧
    (estimateLandmarks x y w h).left_eye = ⟨x + w * 0.35, y + h * 0.35⟩ ∧
    (estimateLandmarks x y w h).right_eye = ⟨x + w * 0.65, y + h * 0.35⟩ ∧
    (estimateLandmarks x y w h).nose_tip = ⟨x + w * 0.5, y + h * 0.55⟩ ∧
    (estimateLandmarks x y w h).mouth_center = ⟨x + w * 0.5, y + h * 0.75⟩ ∧
    (estimateLandmarks x y w h).left_cheek = ⟨x + w * 0.25, y + h * 0.6⟩ ∧
    (estimateLandmarks x y w h).right_cheek = ⟨x + w * 0.75, y + h * 0.6⟩ ∧
    (estimateLandmarks x y w h).chin = ⟨x + w * 0.5, y + h * 0.9⟩ ∧
    (extractBasicLandmarks x y w h).left_eye = [⟨x + w * 0.3, y + h * 0.4⟩] ∧
    (extractBasicLandmarks x y w h).right_eye = [⟨x + w * 0.7, y + h * 0.4⟩] :=
  ⟨rfl, rfl, rfl, rfl, rfl, rfl, rfl, rfl, rfl, rfl, rfl, rfl, rfl, rfl, rfl,
   rfl, rfl⟩

/-- C3, confirmed: the skin-type label is decided by the strict priority
list of the spec, first matching rule first, and the concrete triple
oiliness `0.7`, moisture `0.3`, acne `0.5` yields `"Oily"`. -/
theorem C3_skin_type_priority :
    (∀ oiliness moisture acneSeverity : ℚ,
      determineSkinType oiliness moisture acneSeverity =
        specSkinType oiliness moisture acneSeverity) ∧
    determineSkinType 0.7 0.3 0.5 = "Oily" := by
  refine ⟨fun o m a => rfl, ?_⟩
  norm_num [determineSkinType]

/-- C4, counterexample: the overall health score does not equal the
weighted sum of the component scores; with all six component scores `0.5`
and the per-call jitter drawn as `0.05` (a legal draw from
`random.uniform(-0.05, 0.05)`), the code returns `0.55` while the
weighted sum is `0.5`. -/
theorem C4_counterexample :
    ((-0.05 : ℚ) ≤ 0.05 ∧ (0.05 : ℚ) ≤ 0.05) ∧
    calculateOverallHealth 0.5 0.5 0.5 0.5 0.5 0.5 0.05 ≠
      specHealthWeightedSum 0.5 0.5 0.5 0.5 0.5 0.5 := by
  refine ⟨by norm_num, ?_⟩
  norm_num [calculateOverallHealth, specHealthWeightedSum, roundTo, roundQ]

/-- C4, amended: the overall health score equals the spec's weighted sum
plus the per-call random jitter from `[-0.05, 0.05]`, clamped to
`[0.1, 0.9]` and rounded to three decimals. -/
theorem C4_overall_health (texture pores wrinkles acne moisture radiance
    j : ℚ) :
    calculateOverallHealth texture pores wrinkles acne moisture radiance j =
      roundTo 3 (max 0.1 (min 0.9
        (specHealthWeightedSum texture pores wrinkles acne moisture radiance
          + j))) :=
  rfl

/-- C5, counterexample: the moisture scorer is not idempotent across
repeated calls on a fixed image: with the same masked L-channel statistics
(mean `0`, standard deviation `64`) and the two legal jitter draws `0`
and `0.1`, the two calls return `0.3` and `0.4`. -/
theorem C5_counterexample :
    ((-0.1 : ℚ) ≤ 0 ∧ (0 : ℚ) ≤ 0.1) ∧
    ((-0.1 : ℚ) ≤ 0.1 ∧ (0.1 : ℚ) ≤ 0.1) ∧
    analyzeMoisture 0 64 0 ≠ analyzeMoisture 0 64 0.1 := by
  refine ⟨by norm_num, by norm_num, ?_⟩
  norm_num [analyzeMoisture, roundTo, roundQ]

/-- C5, amended: the moisture, radiance, firmness, age-spot, texture,
pore, wrinkle, acne, redness and overall-health scorers all draw random
jitter, so each of them admits two legal jitter draws that give different
scores on identical image statistics; repeated calls agree only when the
draws coincide (the scorers are deterministic in the statistics and the
draw). -/
theorem C5_jitter :
    (∃ j j' : ℚ, ((-0.1 : ℚ) ≤ j ∧ j ≤ 0.1) ∧ ((-0.1 : ℚ) ≤ j' ∧ j' ≤ 0.1) ∧
      analyzeMoisture 0 64 j ≠ analyzeMoisture 0 64 j') ∧
    (∃ j j' : ℚ, ((-0.1 : ℚ) ≤ j ∧ j ≤ 0.1) ∧ ((-0.1 : ℚ) ≤ j' ∧ j' ≤ 0.1) ∧
      analyzeRadiance 0 0 j ≠ analyzeRadiance 0 0 j') ∧
    (∃ j j' : ℚ, ((-0.1 : ℚ) ≤ j ∧ j ≤ 0.1) ∧ ((-0.1 : ℚ) ≤ j' ∧ j' ≤ 0.1) ∧
      analyzeFirmness 50 j ≠ analyzeFirmness 50 j') ∧
    (∃ j j' : ℚ, ((0.1 : ℚ) ≤ j ∧ j ≤ 0.3) ∧ ((0.1 : ℚ) ≤ j' ∧ j' ≤ 0.3) ∧
      analyzeAgeSpots 0 j ≠ analyzeAgeSpots 0 j') ∧
    (∃ j j' : ℚ, ((-0.1 : ℚ) ≤ j ∧ j ≤ 0.1) ∧ ((-0.1 : ℚ) ≤ j' ∧ j' ≤ 0.1) ∧
      textureScore 50 j ≠ textureScore 50 j') ∧
    (∃ j j' : ℚ, ((-0.1 : ℚ) ≤ j ∧ j ≤ 0.1) ∧ ((-0.1 : ℚ) ≤ j' ∧ j' ≤ 0.1) ∧
      analyzePores 51 j ≠ analyzePores 51 j') ∧
    (∃ j j' : ℚ, ((-0.1 : ℚ) ≤ j ∧ j ≤ 0.1) ∧ ((-0.1 : ℚ) ≤ j' ∧ j' ≤ 0.1) ∧
      analyzeWrinkles 30 j ≠ analyzeWrinkles 30 j') ∧
    (∃ j j' : ℚ, ((-0.1 : ℚ) ≤ j ∧ j ≤ 0.1) ∧ ((-0.1 : ℚ) ≤ j' ∧ j' ≤ 0.1) ∧
      analyzeAcne 0.05 j ≠ analyzeAcne 0.05 j') ∧
    (∃ j j' : ℚ, ((-0.1 : ℚ) ≤ j ∧ j ≤ 0.1) ∧ ((-0.1 : ℚ) ≤ j' ∧ j' ≤ 0.1) ∧
      calculateRedness 1 j ≠ calculateRedness 1 j') ∧
    (∃ j j' : ℚ, ((-0.05 : ℚ) ≤ j ∧ j ≤ 0.05) ∧
      ((-0.05 : ℚ) ≤ j' ∧ j' ≤ 0.05) ∧
      calculateOverallHealth 0.5 0.5 0.5 0.5 0.5 0.5 j ≠
        calculateOverallHealth 0.5 0.5 0.5 0.5 0.5 0.5 j') := by
  refine ⟨⟨0, 0.1, ?_⟩, ⟨0, 0.1, ?_⟩, ⟨0, 0.1, ?_⟩, ⟨0.1, 0.3, ?_⟩,
    ⟨0, 0.1, ?_⟩, ⟨0, 0.1, ?_⟩, ⟨0, 0.1, ?_⟩, ⟨0, 0.1, ?_⟩, ⟨0, 0.1, ?_⟩,
    ⟨0, 0.05, ?_⟩⟩ <;> refine ⟨by norm_num, by norm_num, ?_⟩ <;>
    norm_num [analyzeMoisture, analyzeRadiance, analyzeFirmness,
      analyzeAgeSpots, textureScore, textureRoughness, analyzePores,
      analyzeWrinkles, analyzeAcne, calculateRedness, calculateOverallHealth,
      roundTo, roundQ]

/-- C2, confirmed: when a face region is found, the estimated age is the
weighted sum of the six indicator ages `25 + indicator·range` with the
spec's ranges and weights, clamped to `[18, 80]`; the age range is
`[age−5, age+5]` clamped to `[18, 80]`; and the confidence is
`1 − stddev` of the six raw indicators floored at `0.3` (the code's extra
`min(1.0, σ)` never changes the value since `σ ≥ 0`). -/
theorem C2_age_estimation (wrinkle texture eyeArea volume hair skinTone
    σ : ℚ) (hσ0 : 0 ≤ σ)
    (hσ : σ ^ 2 =
      listVariance [wrinkle, texture, eyeArea, volume, hair, skinTone]) :
    calculateWeightedAge wrinkle texture eyeArea volume hair skinTone =
      specWeightedAge wrinkle texture eyeArea volume hair skinTone ∧
    (18 ≤ calculateWeightedAge wrinkle texture eyeArea volume hair skinTone ∧
      calculateWeightedAge wrinkle texture eyeArea volume hair skinTone ≤ 80) ∧
    calculateAgeRange
        (calculateWeightedAge wrinkle texture eyeArea volume hair skinTone) =
      (max 18 (min 80
         (calculateWeightedAge wrinkle texture eyeArea volume hair skinTone
           - 5)),
       max 18 (min 80
         (calculateWeightedAge wrinkle texture eyeArea volume hair skinTone
           + 5)),
       calculateWeightedAge wrinkle texture eyeArea volume hair skinTone) ∧
    ageConfidenceOfStd σ = specAgeConfidence σ := by
  set age := calculateWeightedAge wrinkle texture eyeArea volume hair skinTone
    with hage
  have h18 : 18 ≤ age := by
    rw [hage, calculateWeightedAge]
    exact le_max_left _ _
  have h80 : age ≤ 80 := by
    rw [hage, calculateWeightedAge]
    exact max_le (by norm_num) (min_le_left _ _)
  refine ⟨?_, ⟨h18, h80⟩, ?_, ?_⟩
  · rw [hage, calculateWeightedAge, specWeightedAge]
    have h : wrinkle * 40 * 0.3 + texture * 30 * 0.2 + eyeArea * 35 * 0.15 +
        volume * 25 * 0.15 + hair * 30 * 0.1 + skinTone * 20 * 0.1 + 25 =
        (25 + wrinkle * 40) * 0.30 + (25 + texture * 30) * 0.20 +
        (25 + eyeArea * 35) * 0.15 + (25 + volume * 25) * 0.15 +
        (25 + hair * 30) * 0.10 + (25 + skinTone * 20) * 0.10 := by ring
    congr 2
    linarith [h]
  · rw [calculateAgeRange]
    have hmin : min (80 : ℚ) (age - 5) = age - 5 :=
      min_eq_right (by linarith)
    have hmax : max (18 : ℚ) (min 80 (age + 5)) = min 80 (age + 5) :=
      max_eq_right (le_min (by norm_num) (by linarith))
    rw [hmin, hmax]
  · rw [ageConfidenceOfStd, specAgeConfidence]
    rcases le_or_lt σ 1 with h | h
    · rw [min_eq_right h]
    · rw [min_eq_left h.le]
      rw [max_eq_left (by norm_num), max_eq_left (by linarith)]

/-- Witness for C2 at the six indicator scores all `0.5`, whose standard
deviation is `0`. -/
theorem C2_age_estimation_witness :
    ((0 : ℚ) ≤ 0 ∧
     (0 : ℚ) ^ 2 = listVariance [0.5, 0.5, 0.5, 0.5, 0.5, 0.5]) ∧
    (calculateWeightedAge 0.5 0.5 0.5 0.5 0.5 0.5 =
      specWeightedAge 0.5 0.5 0.5 0.5 0.5 0.5 ∧
    (18 ≤ calculateWeightedAge 0.5 0.5 0.5 0.5 0.5 0.5 ∧
      calculateWeightedAge 0.5 0.5 0.5 0.5 0.5 0.5 ≤ 80) ∧
    calculateAgeRange (calculateWeightedAge 0.5 0.5 0.5 0.5 0.5 0.5) =
      (max 18 (min 80 (calculateWeightedAge 0.5 0.5 0.5 0.5 0.5 0.5 - 5)),
       max 18 (min 80 (calculateWeightedAge 0.5 0.5 0.5 0.5 0.5 0.5 + 5)),
       calculateWeightedAge 0.5 0.5 0.5 0.5 0.5 0.5) ∧
    ageConfidenceOfStd 0 = specAgeConfidence 0) :=
  ⟨⟨le_refl 0, by norm_num [listVariance, listMean]⟩,
   C2_age_estimation 0.5 0.5 0.5 0.5 0.5 0.5 0 (le_refl 0)
     (by norm_num [listVariance, listMean])⟩

/-- C6, confirmed: when a face was detected but the segmented skin fraction
is below `0.05`, skin analysis aborts with the defaulted report:
`has_face = false`, coverage `0`, skin type `"Unknown"`, overall health
`0`, and all twelve hd parameters with zero raw and ui scores — a gate
distinct from face-detection failure, since it fires with the
face-detected flag `true`. -/
theorem C6_skin_coverage_gate (coverage : ℚ) (success : SkinReport)
    (h : coverage < 0.05) :
    analyzeSkin true coverage success = noFaceAnalysisResult ∧
    noFaceAnalysisResult.has_face = false ∧
    noFaceAnalysisResult.skin_coverage = 0 ∧
    noFaceAnalysisResult.skin_type = "Unknown" ∧
    noFaceAnalysisResult.overall_health = 0 ∧
    (noFaceAnalysisResult.hd_redness.raw_score = 0 ∧
     noFaceAnalysisResult.hd_redness.ui_score = 0) ∧
    (noFaceAnalysisResult.hd_oiliness.raw_score = 0 ∧
     noFaceAnalysisResult.hd_oiliness.ui_score = 0) ∧
    (noFaceAnalysisResult.hd_age_spots.raw_score = 0 ∧
     noFaceAnalysisResult.hd_age_spots.ui_score = 0) ∧
    (noFaceAnalysisResult.hd_radiance.raw_score = 0 ∧
     noFaceAnalysisResult.hd_radiance.ui_score = 0) ∧
    (noFaceAnalysisResult.hd_moisture.raw_score = 0 ∧
     noFaceAnalysisResult.hd_moisture.ui_score = 0) ∧
    (noFaceAnalysisResult.hd_dark_circles.raw_score = 0 ∧
     noFaceAnalysisResult.hd_dark_circles.ui_score = 0) ∧
    (noFaceAnalysisResult.hd_eye_bags.raw_score = 0 ∧
     noFaceAnalysisResult.hd_eye_bags.ui_score = 0) ∧
    (noFaceAnalysisResult.hd_firmness.raw_score = 0 ∧
     noFaceAnalysisResult.hd_firmness.ui_score = 0) ∧
    (noFaceAnalysisResult.hd_texture.raw_score = 0 ∧
     noFaceAnalysisResult.hd_texture.ui_score = 0) ∧
    (noFaceAnalysisResult.hd_acne.raw_score = 0 ∧
     noFaceAnalysisResult.hd_acne.ui_score = 0) ∧
    (noFaceAnalysisResult.hd_pores.raw_score = 0 ∧
     noFaceAnalysisResult.hd_pores.ui_score = 0) ∧
    (noFaceAnalysisResult.hd_wrinkles.raw_score = 0 ∧
     noFaceAnalysisResult.hd_wrinkles.ui_score = 0) := by
  refine ⟨?_, ?_⟩
  · simp [analyzeSkin, h]
  · norm_num [noFaceAnalysisResult, createSkinParameter, roundTo, roundQ]

/-- Witness for C6 at skin coverage `0.04`. -/
theorem C6_skin_coverage_gate_witness :
    (0.04 : ℚ) < 0.05 ∧
    analyzeSkin true 0.04 noFaceAnalysisResult = noFaceAnalysisResult ∧
    noFaceAnalysisResult.has_face = false :=
  ⟨by norm_num,
   (C6_skin_coverage_gate 0.04 noFaceAnalysisResult (by norm_num)).1,
   (C6_skin_coverage_gate 0.04 noFaceAnalysisResult (by norm_num)).2.1⟩

/-- C7, confirmed: the comprehensive endpoint first runs face detection;
when it reports no face, the endpoint fails with a 400 error carrying the
face-detection sub-report and the response does not depend on the four
downstream analyses (they are not run); when a face is reported, the
response contains all four analysis results. -/
theorem C7_comprehensive_gate {σ φ α ε : Type} (fd : FaceDetectionResult)
    (analyses : Unit → σ × φ × α × ε) :
    (fd.has_face = false →
      comprehensiveAnalysis fd analyses = .error
        { status_code := 400
          error := "No face detected"
          message := "Please capture a clear image of your face for analysis. The image must contain a visible human face."
          face_detection := fd } ∧
      ∀ other : Unit → σ × φ × α × ε,
        comprehensiveAnalysis fd other = comprehensiveAnalysis fd analyses) ∧
    (fd.has_face = true →
      comprehensiveAnalysis fd analyses = .ok (fd, analyses ())) := by
  constructor
  · intro h
    constructor
    · simp [comprehensiveAnalysis, h]
    · intro other
      simp [comprehensiveAnalysis, h]
  · intro h
    simp [comprehensiveAnalysis, h]

/-- Witness for C7 at a no-face and at a with-face detection result, with
`Unit` analysis payloads. -/
theorem C7_comprehensive_gate_witness :
    ((FaceDetectionResult.mk false 0 0).has_face = false ∧
      comprehensiveAnalysis (FaceDetectionResult.mk false 0 0)
          (fun _ => (((), (), (), ()) : Unit × Unit × Unit × Unit)) = .error
        { status_code := 400
          error := "No face detected"
          message := "Please capture a clear image of your face for analysis. The image must contain a visible human face."
          face_detection := FaceDetectionResult.mk false 0 0 }) ∧
    ((FaceDetectionResult.mk true 1 0.7).has_face = true ∧
      comprehensiveAnalysis (FaceDetectionResult.mk true 1 0.7)
          (fun _ => (((), (), (), ()) : Unit × Unit × Unit × Unit)) =
        .ok (FaceDetectionResult.mk true 1 0.7, (), (), (), ())) :=
  ⟨⟨rfl, ((C7_comprehensive_gate (FaceDetectionResult.mk false 0 0)
      (fun _ => ((), (), (), ()))).1 rfl).1⟩,
   ⟨rfl, (C7_comprehensive_gate (FaceDetectionResult.mk true 1 0.7)
      (fun _ => ((), (), (), ()))).2 rfl⟩⟩

/-- C8, confirmed: every hd skin parameter of a successful analysis — built
by `_create_skin_parameter` from the twelve estimator scores, with each
`random.uniform` draw in its range — has raw score in `[0, 1]`, ui score
equal to `clamp(raw·100, 0, 100)`, severity given by the `30/70` bands on
that ui value, and confidence in `[0, 1]`. -/
theorem C8_skin_parameters
    (lMean lStd lMean2 lStd2 gradMean gradMean2 grayMean grayStd poreMean
     lapMean spotPct acnePct ratio jm jrad jf ja jd je jt jo jp jw jac
     jr : ℚ)
    (hspot : 0 ≤ spotPct) (hja : 0.1 ≤ ja) (hja2 : ja ≤ 0.3)
    (hjd : -0.1 ≤ jd) (hjd2 : jd ≤ 0.3)
    (hje : -0.05 ≤ je) (hje2 : je ≤ 0.25) :
    ParamSpecOk (calculateRedness ratio jr) ∧
    ParamSpecOk (textureOiliness grayMean grayStd jo) ∧
    ParamSpecOk (analyzeAgeSpots spotPct ja) ∧
    ParamSpecOk (analyzeRadiance lMean lStd jrad) ∧
    ParamSpecOk (analyzeMoisture lMean2 lStd2 jm) ∧
    ParamSpecOk (analyzeDarkCircles jd) ∧
    ParamSpecOk (analyzeEyeBags je) ∧
    ParamSpecOk (analyzeFirmness gradMean jf) ∧
    ParamSpecOk (textureScore gradMean2 jt) ∧
    ParamSpecOk (analyzeAcne acnePct jac) ∧
    ParamSpecOk (analyzePores poreMean jp) ∧
    ParamSpecOk (analyzeWrinkles lapMean jw) := by
  refine ⟨?_, ?_, ?_, ?_, ?_, ?_, ?_, ?_, ?_, ?_, ?_, ?_⟩
  · exact paramSpecOk_of_unit (calculateRedness_mem_unit ratio jr).1
      (calculateRedness_mem_unit ratio jr).2
  · exact paramSpecOk_of_unit (textureOiliness_mem_unit grayMean grayStd jo).1
      (textureOiliness_mem_unit grayMean grayStd jo).2
  · exact paramSpecOk_of_unit (analyzeAgeSpots_mem_unit hspot hja).1
      (analyzeAgeSpots_mem_unit hspot hja).2
  · exact paramSpecOk_of_unit (analyzeRadiance_mem_unit lMean lStd jrad).1
      (analyzeRadiance_mem_unit lMean lStd jrad).2
  · exact paramSpecOk_of_unit (analyzeMoisture_mem_unit lMean2 lStd2 jm).1
      (analyzeMoisture_mem_unit lMean2 lStd2 jm).2
  · exact paramSpecOk_of_unit (analyzeDarkCircles_mem_unit hjd hjd2).1
      (analyzeDarkCircles_mem_unit hjd hjd2).2
  · exact paramSpecOk_of_unit (analyzeEyeBags_mem_unit hje hje2).1
      (analyzeEyeBags_mem_unit hje hje2).2
  · exact paramSpecOk_of_unit (analyzeFirmness_mem_unit gradMean jf).1
      (analyzeFirmness_mem_unit gradMean jf).2
  · exact paramSpecOk_of_unit (textureScore_mem_unit gradMean2 jt).1
      (textureScore_mem_unit gradMean2 jt).2
  · exact paramSpecOk_of_unit (analyzeAcne_mem_unit acnePct jac).1
      (analyzeAcne_mem_unit acnePct jac).2
  · exact paramSpecOk_of_unit (analyzePores_mem_unit poreMean jp).1
      (analyzePores_mem_unit poreMean jp).2
  · exact paramSpecOk_of_unit (analyzeWrinkles_mem_unit lapMean jw).1
      (analyzeWrinkles_mem_unit lapMean jw).2

/-- Witness for C8 with all pixel statistics `0` and the jitter draws
`0` (or `0.1` for the age-spot draw, whose range is `[0.1, 0.3]`). -/
theorem C8_skin_parameters_witness :
    ((0 : ℚ) ≤ 0 ∧ (0.1 : ℚ) ≤ 0.1 ∧ (0.1 : ℚ) ≤ 0.3 ∧
     (-0.1 : ℚ) ≤ 0 ∧ (0 : ℚ) ≤ 0.3 ∧ (-0.05 : ℚ) ≤ 0 ∧ (0 : ℚ) ≤ 0.25) ∧
    (ParamSpecOk (calculateRedness 0 0) ∧
     ParamSpecOk (textureOiliness 0 0 0) ∧
     ParamSpecOk (analyzeAgeSpots 0 0.1) ∧
     ParamSpecOk (analyzeRadiance 0 0 0) ∧
     ParamSpecOk (analyzeMoisture 0 0 0) ∧
     ParamSpecOk (analyzeDarkCircles 0) ∧
     ParamSpecOk (analyzeEyeBags 0) ∧
     ParamSpecOk (analyzeFirmness 0 0) ∧
     ParamSpecOk (textureScore 0 0) ∧
     ParamSpecOk (analyzeAcne 0 0) ∧
     ParamSpecOk (analyzePores 0 0) ∧
     ParamSpecOk (analyzeWrinkles 0 0)) :=
  ⟨by norm_num,
   C8_skin_parameters 0 0 0 0 0 0 0 0 0 0 0 0 0 0 0 0 0.1 0 0 0 0 0 0 0 0
     (by norm_num) (by norm_num) (by norm_num) (by norm_num) (by norm_num)
     (by norm_num) (by norm_num)⟩

/-- C9, counterexample: there are fourteen action-unit scores, not
thirteen; with `AU1 = 1` and all other AUs `0`, the expression intensity
is `1/14`, which is not the mean over thirteen scores `1/13`. -/
theorem C9_counterexample :
    (AUScores.values ⟨1, 0, 0, 0, 0, 0, 0, 0, 0, 0, 0, 0, 0, 0⟩).length
      = 14 ∧
    calculateExpressionIntensity ⟨1, 0, 0, 0, 0, 0, 0, 0, 0, 0, 0, 0, 0, 0⟩
      = 1 / 14 ∧
    (1 / 14 : ℚ) ≠
      (AUScores.values ⟨1, 0, 0, 0, 0, 0, 0, 0, 0, 0, 0, 0, 0, 0⟩).sum
        / 13 := by
  refine ⟨rfl, ?_, ?_⟩
  · norm_num [calculateExpressionIntensity, AUScores.values]
  · norm_num [AUScores.values]

/-- C9, amended: with all fourteen AU scores in `[0, 1]`, the emotion
confidences are the fixed AU combinations (happy the mean of AU6 and
AU12, surprise the mean of AU1, AU2, AU5 and AU25, neutral one minus the
mean of all fourteen AUs, each reported rounded to three decimals), the
dominant emotion is one of maximal confidence, and the expression
intensity is the mean of all fourteen AU scores. -/
theorem C9_emotions (a : AUScores)
    (h : ∀ q ∈ a.values, 0 ≤ q ∧ q ≤ 1) :
    detectEmotions a =
      [("happy", roundTo 3 ((a.au6 + a.au12) / 2)),
       ("sad", roundTo 3 ((a.au15 + a.au1) / 2)),
       ("angry", roundTo 3 ((a.au4 + a.au15) / 2)),
       ("surprise", roundTo 3 ((a.au1 + a.au2 + a.au5 + a.au25) / 4)),
       ("fear", roundTo 3 ((a.au1 + a.au5 + a.au20) / 3)),
       ("disgust", roundTo 3 ((a.au9 + a.au10) / 2)),
       ("neutral", roundTo 3 (1 - a.values.sum / 14))] ∧
    calculateExpressionIntensity a = a.values.sum / 14 ∧
    analyzeExpressionDominant a ∈ detectEmotions a ∧
    (∀ p ∈ detectEmotions a, p.2 ≤ (analyzeExpressionDominant a).2) := by
  simp only [AUScores.values, List.forall_mem_cons, List.forall_mem_nil,
    and_true] at h
  obtain ⟨h1, h2, h4, h5, h6, h7, h9, h10, h12, h15, h17, h20, h25, h26⟩ := h
  have hsum : a.values.sum ≤ 14 := by
    simp only [AUScores.values, List.sum_cons, List.sum_nil]
    linarith [h1.2, h2.2, h4.2, h5.2, h6.2, h7.2, h9.2, h10.2, h12.2, h15.2,
      h17.2, h20.2, h25.2, h26.2]
  have hlen : ((a.values.length : ℕ) : ℚ) = 14 := by
    simp [AUScores.values]
  have hmean : a.values.sum / ((a.values.length : ℕ) : ℚ) =
      a.values.sum / 14 := by rw [hlen]
  have hnn : (0 : ℚ) ≤ 1 - a.values.sum / 14 := by
    have : a.values.sum / 14 ≤ 1 := by
      rw [div_le_one (by norm_num)]
      exact hsum
    linarith
  refine ⟨?_, ?_, ?_, ?_⟩
  · simp only [detectEmotions, hmean, max_eq_right hnn]
  · rw [calculateExpressionIntensity]
    simp only [hmean]
    have : a.values.sum / 14 ≤ 1 := by
      rw [div_le_one (by norm_num)]
      exact hsum
    exact min_eq_right this
  · exact dominantEmotion_mem _ _
  · intro p hp
    exact le_dominantEmotion _ _ p hp

/-- Witness for C9 at all AU scores `0`. -/
theorem C9_emotions_witness :
    (∀ q ∈ (AUScores.mk 0 0 0 0 0 0 0 0 0 0 0 0 0 0).values,
      0 ≤ q ∧ q ≤ 1) ∧
    calculateExpressionIntensity (AUScores.mk 0 0 0 0 0 0 0 0 0 0 0 0 0 0) =
      (AUScores.mk 0 0 0 0 0 0 0 0 0 0 0 0 0 0).values.sum / 14 :=
  ⟨by
    intro q hq
    simp only [AUScores.values, List.mem_cons, List.not_mem_nil,
      or_false] at hq
    rcases hq with rfl | rfl | rfl | rfl | rfl | rfl | rfl | rfl | rfl | rfl
      | rfl | rfl | rfl | rfl <;> norm_num,
   (C9_emotions (AUScores.mk 0 0 0 0 0 0 0 0 0 0 0 0 0 0)
     (by
       intro q hq
       simp only [AUScores.values, List.mem_cons, List.not_mem_nil,
         or_false] at hq
       rcases hq with rfl | rfl | rfl | rfl | rfl | rfl | rfl | rfl | rfl
         | rfl | rfl | rfl | rfl | rfl <;> norm_num)).2.1⟩

/-- C10, confirmed: the face-detection result has confidence exactly `0`
when no face is reported, and confidence in `[0.6, 1]` when a face is
reported — never strictly between `0` and `0.6`, since the base `0.5` and
the minimal size bonus `0.1` always apply. -/
theorem C10_detection_confidence (faces : List FaceBox) (imgW imgH : ℕ)
    (brightness : ℚ) :
    ((detectFaces faces imgW imgH brightness).has_face = false →
      (detectFaces faces imgW imgH brightness).confidence = 0) ∧
    ((detectFaces faces imgW imgH brightness).has_face = true →
      3 / 5 ≤ (detectFaces faces imgW imgH brightness).confidence ∧
      (detectFaces faces imgW imgH brightness).confidence ≤ 1) := by
  cases faces with
  | nil =>
    refine ⟨fun _ => rfl, fun h => absurd h (by simp [detectFaces])⟩
  | cons f rest =>
    refine ⟨fun h => absurd h (by simp [detectFaces]), fun _ => ?_⟩
    show 3 / 5 ≤ calculateConfidence (f :: rest) imgW imgH brightness ∧
      calculateConfidence (f :: rest) imgW imgH brightness ≤ 1
    simp only [calculateConfidence]
    split_ifs <;> norm_num [roundTo, roundQ]

/-- Witness for C10 at an empty detection list and at a single 30×30 box
in a 100×100 image with brightness `0`. -/
theorem C10_detection_confidence_witness :
    ((detectFaces [] 100 100 0).has_face = false ∧
     (detectFaces [] 100 100 0).confidence = 0) ∧
    ((detectFaces [FaceBox.mk 0 0 30 30] 100 100 0).has_face = true ∧
     3 / 5 ≤ (detectFaces [FaceBox.mk 0 0 30 30] 100 100 0).confidence ∧
     (detectFaces [FaceBox.mk 0 0 30 30] 100 100 0).confidence ≤ 1) :=
  ⟨⟨rfl, (C10_detection_confidence [] 100 100 0).1 rfl⟩,
   ⟨rfl, (C10_detection_confidence [FaceBox.mk 0 0 30 30] 100 100 0).2 rfl⟩⟩

end FaceAnalysis
